import Mathlib

/-!
Verification of the OTP-based admin authentication and rate-limiting
subsystem of the swag-request application.

The embedding models, from `src/handlers/admin.ts`, `src/utils/crypto.ts`,
`src/utils/session.ts` and `src/utils/validation.ts`:

* rows of the `admin_sessions` table (`src/db/schema.sql`) as a structure,
  and the store as a list of rows;
* timestamps as integers (milliseconds since the Unix epoch).  Two string
  formats coexist in the program and SQLite compares them as TEXT:
  `created_at` is filled by the column default `CURRENT_TIMESTAMP`
  ("YYYY-MM-DD HH:MM:SS"), while the values the handlers bind —
  `otp_expires_at`, `session_expires_at` and every comparison bound built
  with `toISOString()` — are ISO-8601 ("YYYY-MM-DDTHH:MM:SS.sssZ"), and
  `datetime('now')` is again the SQLite format.  An ISO-to-ISO comparison
  is a strictly monotone image of the integer timeline and translates to
  an integer comparison.  A mixed SQLite-to-ISO comparison is not: the
  two formats share the zero-padded 10-character date prefix, which
  agrees exactly when the instants fall on the same UTC day, and on equal
  prefixes the byte at index 10 decides — the space (0x20) of the SQLite
  format sorts strictly below the `T` (0x54) of the ISO format, whatever
  the times of day.  The mixed comparisons are therefore decided by the
  UTC-day indices alone, and are embedded that way (`sqliteTextGtIso`,
  `isoTextLtSqlite` over `utcDay`);
* each handler as a pure function from its inputs and the store to an
  outcome and the new store.  External collaborators (the validator
  library, the random source, the email provider) enter as parameters:
  the email-format validator as a boolean function, the generated code and
  session token as strings, the email-dispatch result as a boolean;
* the cleanup DELETE of `handleVerifyOTP` can throw; since it sits inside
  the try block, a throw is caught and turned into a 500 response.  A
  boolean `cleanupOk` parameter selects that branch.
-/

namespace Swag

/-- One row of the `admin_sessions` table (schema.sql). -/
structure AdminSession where
  id : Nat
  email : String
  otp : String
  session_token : Option String
  otp_expires_at : Int
  session_expires_at : Option Int
  created_at : Int
deriving DecidableEq, Repr

/-- The `admin_sessions` table. -/
abbrev Store := List AdminSession

/-- `MAX_OTP_REQUESTS_PER_HOUR` of admin.ts. -/
def MAX_OTP_REQUESTS_PER_HOUR : Nat := 5

/-- `MAX_OTP_VERIFY_ATTEMPTS` of admin.ts. -/
def MAX_OTP_VERIFY_ATTEMPTS : Nat := 5

/-- `RATE_LIMIT_WINDOW_MS` of admin.ts: one hour. -/
def RATE_LIMIT_WINDOW_MS : Int := 60 * 60 * 1000

/-- The 15 minute window of `checkVerifyRateLimit`. -/
def VERIFY_WINDOW_MS : Int := 15 * 60 * 1000

/-- Code lifetime used by `handleSendOTP`: 10 minutes. -/
def OTP_TTL_MS : Int := 10 * 60 * 1000

/-- Session lifetime used by `handleVerifyOTP`: 24 hours. -/
def SESSION_TTL_MS : Int := 24 * 60 * 60 * 1000

/-- Milliseconds per UTC day. -/
def msPerDay : Int := 24 * 60 * 60 * 1000

/-- UTC day index of a millisecond timestamp (floor division; `/` on
`Int` is Euclidean division, which floors for a positive divisor). -/
def utcDay (t : Int) : Int := t / msPerDay

/-- SQLite TEXT comparison `a > b` where `a` is rendered in the
`CURRENT_TIMESTAMP` format "YYYY-MM-DD HH:MM:SS" (the `created_at`
column default) and `b` in the ISO-8601 format
"YYYY-MM-DDTHH:MM:SS.sssZ" (a bound built with `toISOString()`).  The
two renderings share the zero-padded 10-character date prefix; on the
same UTC day the prefixes are equal and the space at index 10 of the
SQLite format sorts strictly below the ISO `T`, so the comparison is
false; on different days the date prefixes decide chronologically.
Hence the comparison holds iff `a` falls on a strictly later UTC day. -/
def sqliteTextGtIso (a b : Int) : Bool :=
  decide (utcDay b < utcDay a)

/-- SQLite TEXT comparison `a < b` where `a` is an ISO-8601 string (the
`otp_expires_at` values bound by the handlers) and `b` is in the
`CURRENT_TIMESTAMP` format (`datetime('now')`): by the same prefix
analysis it holds iff `a` falls on a strictly earlier UTC day. -/
def isoTextLtSqlite (a b : Int) : Bool :=
  decide (utcDay a < utcDay b)

/-- The row predicate of the `checkOTPRateLimit` query:
`email = ? AND created_at > ?` with `? = now - RATE_LIMIT_WINDOW_MS`.
`created_at` holds SQLite-format text, the bound is ISO-8601, so the
comparison is the mixed-format one. -/
def otpRequestWithinWindow (email : String) (now : Int) (r : AdminSession) : Bool :=
  r.email == email && sqliteTextGtIso r.created_at (now - RATE_LIMIT_WINDOW_MS)

/-- `checkOTPRateLimit` of admin.ts: counts rows for the email created within
the last hour; first component `allowed`, second `remaining`
(`Math.max(0, 5 - count)` is truncated subtraction on `Nat`). -/
def checkOTPRateLimit (db : Store) (email : String) (now : Int) : Bool × Nat :=
  let count := db.countP (otpRequestWithinWindow email now)
  (decide (count < MAX_OTP_REQUESTS_PER_HOUR), MAX_OTP_REQUESTS_PER_HOUR - count)

/-- The row predicate of the `checkVerifyRateLimit` query:
`email = ? AND created_at > ? AND session_token IS NULL AND
otp_expires_at < datetime('now')`.  `created_at` is SQLite-format text
against an ISO bound, and `otp_expires_at` is ISO text against the
SQLite-format `datetime('now')`, so both time comparisons are the
mixed-format, day-granular ones. -/
def failedVerifyAttempt (email : String) (now : Int) (r : AdminSession) : Bool :=
  r.email == email && sqliteTextGtIso r.created_at (now - VERIFY_WINDOW_MS) &&
    r.session_token == none && isoTextLtSqlite r.otp_expires_at now

/-- `checkVerifyRateLimit` of admin.ts: allowed iff fewer than 5 failed
(expired, never consumed) attempts within the last 15 minutes. -/
def checkVerifyRateLimit (db : Store) (email : String) (now : Int) : Bool :=
  decide (db.countP (failedVerifyAttempt email now) < MAX_OTP_VERIFY_ATTEMPTS)

/-- `validateOTP` of validation.ts: `isNumeric(no_symbols)` together with
`isLength {min 6, max 6}`, i.e. exactly six decimal digits. -/
def validateOTP (otp : String) : Bool :=
  otp.data.all Char.isDigit && otp.data.length == 6

/-- `String.prototype.endsWith`, on character lists. -/
def strEndsWith (s pat : String) : Bool :=
  decide (pat.data.length ≤ s.data.length) &&
    decide (s.data.drop (s.data.length - pat.data.length) = pat.data)

/-- Outcome of `handleSendOTP` (the JSON responses of admin.ts). -/
inductive SendOutcome
  | invalidEmail
  | domainNotAllowed
  | sendRateLimited (retryAfter : Nat)
  | sendSuccess
deriving DecidableEq, Repr

/-- HTTP status attached to each `handleSendOTP` outcome. -/
def SendOutcome.status : SendOutcome → Nat
  | .invalidEmail => 400
  | .domainNotAllowed => 403
  | .sendRateLimited _ => 429
  | .sendSuccess => 200

/-- The row inserted by `handleSendOTP`:
`INSERT INTO admin_sessions (email, otp, otp_expires_at)` with
`otp_expires_at = now + 10 minutes`; `session_token` and
`session_expires_at` keep their NULL defaults, `created_at` defaults to
the current time. -/
def newOtpRecord (nextId : Nat) (email otp : String) (now : Int) : AdminSession :=
  { id := nextId
    email := email
    otp := otp
    session_token := none
    otp_expires_at := now + OTP_TTL_MS
    session_expires_at := none
    created_at := now }

/-- `handleSendOTP` of admin.ts on a normalized (trimmed, lowercased) email.
`emailValid` is the external `validator.isEmail`; `otp` the string produced
by `generateOTP`; `nextId` the id the store assigns to the inserted row;
`emailSent` the boolean returned by the email collaborator.  The code only
logs when `emailSent` is false and returns success either way. -/
def handleSendOTP (emailValid : String → Bool) (email otp : String) (now : Int)
    (nextId : Nat) (emailSent : Bool) (db : Store) : SendOutcome × Store :=
  if email == "" || !(emailValid email) then (.invalidEmail, db)
  else if !(strEndsWith email "@cloudflare.com") then (.domainNotAllowed, db)
  else if !(checkOTPRateLimit db email now).1 then (.sendRateLimited 3600, db)
  else
    let _ := emailSent
    (.sendSuccess, db ++ [newOtpRecord nextId email otp now])

/-- Outcome of `handleVerifyOTP` (the JSON responses of admin.ts).
`storeError` is the catch branch: `Failed to verify OTP`, status 500. -/
inductive VerifyOutcome
  | missingFields
  | invalidFormat
  | verifyRateLimited (retryAfter : Nat)
  | invalidOrExpired
  | storeError
  | verifySuccess (token : String) (cookieMaxAge : Nat)
deriving DecidableEq, Repr

/-- HTTP status attached to each `handleVerifyOTP` outcome. -/
def VerifyOutcome.status : VerifyOutcome → Nat
  | .missingFields => 400
  | .invalidFormat => 400
  | .verifyRateLimited _ => 429
  | .invalidOrExpired => 401
  | .storeError => 500
  | .verifySuccess _ _ => 200

/-- The row predicate of the verification query:
`email = ? AND otp = ? AND otp_expires_at > ? AND session_token IS NULL`. -/
def verifyMatches (email otp : String) (now : Int) (r : AdminSession) : Bool :=
  r.email == email && r.otp == otp && decide (now < r.otp_expires_at) &&
    r.session_token == none

/-- `ORDER BY created_at DESC LIMIT 1`: the row with the largest
`created_at` (the earliest such row in store order when tied). -/
def argMaxCreated : List AdminSession → Option AdminSession
  | [] => none
  | r :: rest =>
    match argMaxCreated rest with
    | none => some r
    | some b => if decide (b.created_at ≤ r.created_at) then some r else some b

/-- The SELECT of `handleVerifyOTP`: most recently created matching row. -/
def findVerifyRecord (email otp : String) (now : Int) (db : Store) : Option AdminSession :=
  argMaxCreated (db.filter (verifyMatches email otp now))

/-- The UPDATE of `handleVerifyOTP`:
`SET session_token = ?, session_expires_at = ?, otp = '' WHERE id = ?`. -/
def consumeRecord (sid : Nat) (token : String) (sessExpiresAt : Int) (db : Store) : Store :=
  db.map (fun r =>
    if r.id == sid then
      { r with
        session_token := some token
        session_expires_at := some sessExpiresAt
        otp := "" }
    else r)

/-- The cleanup DELETE of `handleVerifyOTP`:
`WHERE email = ? AND session_token IS NULL AND id != ?`. -/
def cleanupOthers (email : String) (sid : Nat) (db : Store) : Store :=
  db.filter (fun r => !(r.email == email && r.session_token == none && r.id != sid))

/-- `handleVerifyOTP` of admin.ts on normalized inputs.  `token` is the
string produced by `generateSessionToken`.  `cleanupOk` is whether the
cleanup DELETE succeeds; it runs inside the try block, so its failure
reaches the catch branch (status 500) after the UPDATE already committed. -/
def handleVerifyOTP (email otp token : String) (now : Int) (cleanupOk : Bool)
    (db : Store) : VerifyOutcome × Store :=
  if email == "" || otp == "" then (.missingFields, db)
  else if !(validateOTP otp) then (.invalidFormat, db)
  else if !(checkVerifyRateLimit db email now) then (.verifyRateLimited 900, db)
  else
    match findVerifyRecord email otp now db with
    | none => (.invalidOrExpired, db)
    | some s =>
      let db1 := consumeRecord s.id token (now + SESSION_TTL_MS) db
      if cleanupOk then (.verifySuccess token 86400, cleanupOthers email s.id db1)
      else (.storeError, db1)

/-- The row predicate of the `validateAdminSession` query:
`session_token = ? AND session_expires_at > ?` (NULL compares false). -/
def sessionLive (token : String) (now : Int) (r : AdminSession) : Bool :=
  r.session_token == some token &&
    (match r.session_expires_at with
     | some e => decide (now < e)
     | none => false)

/-- `validateAdminSession` of session.ts: `if (!sessionToken) return false`
(JS falsiness covers both a missing and an empty token, with no query
issued), otherwise true iff a live session row exists. -/
def validateAdminSession (db : Store) (sessionToken : Option String) (now : Int) : Bool :=
  match sessionToken with
  | none => false
  | some t => if t == "" then false else db.any (sessionLive t now)

/-- Outcome of `handleLogout` (always `success: true`). -/
inductive LogoutOutcome
  | logoutSuccess
deriving DecidableEq, Repr

/-- `handleLogout` of admin.ts: `if (sessionToken)` (truthy, so neither
null nor empty) delete rows with that `session_token`; respond success
unconditionally. -/
def handleLogout (sessionToken : Option String) (db : Store) : LogoutOutcome × Store :=
  match sessionToken with
  | none => (.logoutSuccess, db)
  | some t =>
    if t == "" then (.logoutSuccess, db)
    else (.logoutSuccess, db.filter (fun r => !(r.session_token == some t)))

/-- `handleCheckAuth` of admin.ts: status 401 or 200, store untouched. -/
def handleCheckAuth (sessionToken : Option String) (now : Int) (db : Store) : Nat × Store :=
  (if validateAdminSession db sessionToken now then 200 else 401, db)

/-- Character of a decimal digit, `'0'` through `'9'`. -/
def decDigitChar (d : Nat) : Char := Char.ofNat (48 + d)

/-- Decimal digit characters of `n`, least significant first. -/
def decDigitsRev (n : Nat) : List Char :=
  if h : n = 0 then []
  else decDigitChar (n % 10) :: decDigitsRev (n / 10)
decreasing_by exact Nat.div_lt_self (Nat.pos_of_ne_zero h) (by omega)

/-- JS `String(n)` for a non-negative number: decimal digits, no leading
zeros, `"0"` for zero. -/
def decString (n : Nat) : String :=
  if n = 0 then "0" else ⟨(decDigitsRev n).reverse⟩

/-- JS `padStart(6, '0')`. -/
def padStart6 (s : String) : String :=
  ⟨List.replicate (6 - s.data.length) '0' ++ s.data⟩

/-- `generateOTP` of crypto.ts as a function of the 32-bit value drawn by
`crypto.getRandomValues`: `String(100000 + (r % 900000)).padStart(6, '0')`. -/
def generateOTP (r : Nat) : String :=
  padStart6 (decString (100000 + r % 900000))

/-! Basic lemmas about the SELECT with `ORDER BY created_at DESC LIMIT 1` -/

theorem argMaxCreated_eq_none {l : List AdminSession} :
    argMaxCreated l = none ↔ l = [] := by
  cases l with
  | nil => simp [argMaxCreated]
  | cons r rest =>
    rw [argMaxCreated]
    cases h : argMaxCreated rest with
    | none => simp
    | some b =>
      simp only [h]
      split <;> simp

theorem argMaxCreated_mem {l : List AdminSession} :
    ∀ {s : AdminSession}, argMaxCreated l = some s → s ∈ l := by
  induction l with
  | nil => intro s h; simp [argMaxCreated] at h
  | cons r rest ih =>
    intro s h
    rw [argMaxCreated] at h
    cases hrest : argMaxCreated rest with
    | none =>
      simp only [hrest, Option.some.injEq] at h
      simp [h]
    | some b =>
      simp only [hrest] at h
      split at h <;> simp only [Option.some.injEq] at h
      · simp [h]
      · rw [h] at hrest
        exact List.mem_cons_of_mem _ (ih hrest)

theorem argMaxCreated_le {l : List AdminSession} :
    ∀ {s : AdminSession}, argMaxCreated l = some s →
      ∀ r ∈ l, r.created_at ≤ s.created_at := by
  induction l with
  | nil => intro s h; simp [argMaxCreated] at h
  | cons r rest ih =>
    intro s h
    rw [argMaxCreated] at h
    intro x hx
    rcases List.mem_cons.mp hx with rfl | hx
    · cases hrest : argMaxCreated rest with
      | none =>
        simp only [hrest, Option.some.injEq] at h
        simp [h]
      | some b =>
        simp only [hrest] at h
        split at h <;> rename_i hcmp <;>
          simp only [Option.some.injEq] at h <;> subst h
        · exact le_refl _
        · simp only [decide_eq_true_eq] at hcmp
          omega
    · cases hrest : argMaxCreated rest with
      | none =>
        rw [argMaxCreated_eq_none.mp hrest] at hx
        simp at hx
      | some b =>
        simp only [hrest] at h
        have hxb := ih hrest x hx
        split at h <;> rename_i hcmp <;>
          simp only [Option.some.injEq] at h <;> subst h
        · simp only [decide_eq_true_eq] at hcmp
          omega
        · exact hxb

theorem findVerifyRecord_eq_none {e c : String} {now : Int} {db : Store} :
    findVerifyRecord e c now db = none ↔
      ∀ r ∈ db, ¬ verifyMatches e c now r = true := by
  rw [findVerifyRecord, argMaxCreated_eq_none, List.filter_eq_nil_iff]

theorem findVerifyRecord_some {e c : String} {now : Int} {db : Store}
    {s : AdminSession} (h : findVerifyRecord e c now db = some s) :
    s ∈ db ∧ verifyMatches e c now s = true ∧
      ∀ r ∈ db, verifyMatches e c now r = true → r.created_at ≤ s.created_at := by
  have hmem := argMaxCreated_mem h
  rw [List.mem_filter] at hmem
  refine ⟨hmem.1, hmem.2, fun r hr hm => ?_⟩
  exact argMaxCreated_le h r (List.mem_filter.mpr ⟨hr, hm⟩)

/-! Characterization of `handleVerifyOTP` -/

theorem validateOTP_ne_empty {c : String} (hc : validateOTP c = true) :
    (c == "") = false := by
  rw [validateOTP] at hc
  simp only [Bool.and_eq_true, beq_iff_eq] at hc
  rw [beq_eq_false_iff_ne]
  intro h
  subst h
  exact absurd hc.2 (by decide)

theorem handleVerifyOTP_eq_success {e c tok : String} {now : Int} {db : Store}
    {s : AdminSession}
    (he : (e == "") = false) (hc : validateOTP c = true)
    (hr : checkVerifyRateLimit db e now = true)
    (hs : findVerifyRecord e c now db = some s) :
    handleVerifyOTP e c tok now true db =
      (.verifySuccess tok 86400,
        cleanupOthers e s.id (consumeRecord s.id tok (now + SESSION_TTL_MS) db)) := by
  rw [handleVerifyOTP, he, validateOTP_ne_empty hc, hc, hr, hs]
  simp

theorem handleVerifyOTP_eq_storeError {e c tok : String} {now : Int} {db : Store}
    {s : AdminSession}
    (he : (e == "") = false) (hc : validateOTP c = true)
    (hr : checkVerifyRateLimit db e now = true)
    (hs : findVerifyRecord e c now db = some s) :
    handleVerifyOTP e c tok now false db =
      (.storeError, consumeRecord s.id tok (now + SESSION_TTL_MS) db) := by
  rw [handleVerifyOTP, he, validateOTP_ne_empty hc, hc, hr, hs]
  simp

theorem handleVerifyOTP_eq_invalid {e c tok : String} {now : Int} {ck : Bool}
    {db : Store}
    (he : (e == "") = false) (hc : validateOTP c = true)
    (hr : checkVerifyRateLimit db e now = true)
    (hs : findVerifyRecord e c now db = none) :
    handleVerifyOTP e c tok now ck db = (.invalidOrExpired, db) := by
  rw [handleVerifyOTP, he, validateOTP_ne_empty hc, hc, hr, hs]
  simp

theorem handleVerifyOTP_success_inv {e c tok : String} {now : Int} {ck : Bool}
    {db db' : Store} {tk : String} {m : Nat}
    (h : handleVerifyOTP e c tok now ck db = (.verifySuccess tk m, db')) :
    (e == "") = false ∧ validateOTP c = true ∧
      checkVerifyRateLimit db e now = true ∧ ck = true ∧ tk = tok ∧ m = 86400 ∧
      ∃ s, findVerifyRecord e c now db = some s ∧
        db' = cleanupOthers e s.id (consumeRecord s.id tok (now + SESSION_TTL_MS) db) := by
  rw [handleVerifyOTP] at h
  split at h
  · simp at h
  · split at h
    · simp at h
    · split at h
      · simp at h
      · rename_i h1 h2 h3
        simp only [Bool.not_eq_true, Bool.or_eq_false_iff] at h1
        have hc : validateOTP c = true := by
          rcases hv : validateOTP c with _ | _
          · rw [hv] at h2; simp at h2
          · rfl
        have hr : checkVerifyRateLimit db e now = true := by
          rcases hv : checkVerifyRateLimit db e now with _ | _
          · rw [hv] at h3; simp at h3
          · rfl
        cases hfind : findVerifyRecord e c now db with
        | none => rw [hfind] at h; simp at h
        | some s =>
          rw [hfind] at h
          cases ck with
          | false => simp at h
          | true =>
            simp only [if_true, Prod.mk.injEq, VerifyOutcome.verifySuccess.injEq] at h
            exact ⟨h1.1, hc, hr, rfl, h.1.1.symm, h.1.2.symm, s, rfl, h.2.symm⟩

theorem sessionLive_iff {t : String} {now : Int} {r : AdminSession} :
    sessionLive t now r = true ↔
      r.session_token = some t ∧
        ∃ ex, r.session_expires_at = some ex ∧ now < ex := by
  rw [sessionLive]
  simp only [Bool.and_eq_true, beq_iff_eq]
  constructor
  · rintro ⟨h1, h2⟩
    refine ⟨h1, ?_⟩
    cases he : r.session_expires_at with
    | none => rw [he] at h2; simp at h2
    | some ex =>
      rw [he] at h2
      exact ⟨ex, rfl, by simpa using h2⟩
  · rintro ⟨h1, ex, he, hlt⟩
    refine ⟨h1, ?_⟩
    rw [he]
    simpa using hlt

/-! Claim theorems -/

/-- C5: session validation returns `false` for an absent or empty token
whatever the store holds (the code returns before issuing a query); for a
non-empty token it returns `true` iff some record has that
`session_token` and a `session_expires_at` strictly later than `now`;
and the validation path (`handleCheckAuth`) leaves every record
unchanged, so a session expiry is fixed and never extended by use. -/
theorem claim_C5_session_validation (db : Store) (now : Int) :
    validateAdminSession db none now = false ∧
    validateAdminSession db (some "") now = false ∧
    (∀ t : String, t ≠ "" →
      (validateAdminSession db (some t) now = true ↔
        ∃ r ∈ db, r.session_token = some t ∧
          ∃ ex, r.session_expires_at = some ex ∧ now < ex)) ∧
    (∀ tok, (handleCheckAuth tok now db).2 = db) := by
  refine ⟨rfl, by rw [validateAdminSession]; simp, fun t ht => ?_, fun tok => rfl⟩
  have hne : (t == "") = false := beq_eq_false_iff_ne.mpr ht
  rw [validateAdminSession, hne]
  simp only [Bool.false_eq_true, if_false, List.any_eq_true, sessionLive_iff]

/-- C9: `handleLogout` deletes exactly the records carrying the presented
token and reports success unconditionally; running it twice with the same
token succeeds again and leaves the store where the first run left it;
and validating the token after logout returns `false`. -/
theorem claim_C9_logout_idempotent (tok : Option String) (db : Store) :
    (handleLogout tok db).1 = .logoutSuccess ∧
    handleLogout tok (handleLogout tok db).2 =
      (.logoutSuccess, (handleLogout tok db).2) ∧
    (∀ now, validateAdminSession (handleLogout tok db).2 tok now = false) ∧
    (∀ t, tok = some t → t ≠ "" →
      ∀ r ∈ (handleLogout tok db).2, r.session_token ≠ some t) := by
  have hmem : ∀ t : String, (t == "") = false →
      ∀ r ∈ (handleLogout (some t) db).2, (r.session_token == some t) = false := by
    intro t ht r hr
    rw [handleLogout, ht] at hr
    simp only [Bool.false_eq_true, if_false] at hr
    have := List.of_mem_filter hr
    simpa using this
  have houtcome : ∀ o : LogoutOutcome, o = .logoutSuccess := by
    intro o; cases o; rfl
  refine ⟨houtcome _, ?_, ?_, ?_⟩
  · cases tok with
    | none => rfl
    | some t =>
      by_cases ht : (t == "") = true
      · rw [handleLogout, ht]
        simp
      · rw [Bool.not_eq_true] at ht
        have h2 : (handleLogout (some t) db).2 = db.filter
            (fun r => !(r.session_token == some t)) := by
          rw [handleLogout, ht]
          simp
        rw [h2, handleLogout, ht]
        simp only [Bool.false_eq_true, if_false, Prod.mk.injEq, true_and]
        exact List.filter_eq_self.mpr fun a ha => (List.mem_filter.mp ha).2
  · intro now
    cases tok with
    | none => rfl
    | some t =>
      by_cases ht : (t == "") = true
      · rw [validateAdminSession, ht]
        simp
      · rw [Bool.not_eq_true] at ht
        rw [validateAdminSession, ht]
        simp only [Bool.false_eq_true, if_false, List.any_eq_false]
        intro r hr
        have := hmem t ht r hr
        rw [sessionLive]
        simp [this]
  · rintro t rfl ht r hr
    have := hmem t (beq_eq_false_iff_ne.mpr ht) r hr
    simpa using this

/-- Five requests for one admin issued between 12:00 and 12:04 UTC of day
20000 (millisecond timestamps; 1728043200000 is 12:00), each code
expiring ten minutes after creation — the store a sixth issuance call at
12:05 of the same day finds. -/
def fiveSameHour : Store :=
  [⟨1, "admin@cloudflare.com", "111111", none, 1728043800000, none, 1728043200000⟩,
   ⟨2, "admin@cloudflare.com", "222222", none, 1728043860000, none, 1728043260000⟩,
   ⟨3, "admin@cloudflare.com", "333333", none, 1728043920000, none, 1728043320000⟩,
   ⟨4, "admin@cloudflare.com", "444444", none, 1728043980000, none, 1728043380000⟩,
   ⟨5, "admin@cloudflare.com", "555555", none, 1728044040000, none, 1728043440000⟩]

/-- C3 (code bug): the claim — allowed iff fewer than five records in the
last 60 minutes, the sixth same-hour issuance answering RateLimited — is
what `checkOTPRateLimit` plainly intends (its comment, the
`MAX_OTP_REQUESTS_PER_HOUR` constant, the retryAfter hint), but the query
compares the SQLite-format `created_at` text against an ISO-8601 bound,
which is false for every same-UTC-day record.  At this concrete input
five records for the email were created chronologically within the last
hour (first conjunct), yet the program counts none of them, reports the
sixth call allowed, and persists a sixth record instead of answering
RateLimited with status 429. -/
theorem claim_C3_issuance_limit_defeated :
    List.countP (fun r => r.email == "admin@cloudflare.com" &&
      decide (1728043500000 - RATE_LIMIT_WINDOW_MS < r.created_at))
      fiveSameHour = 5 ∧
    List.countP (otpRequestWithinWindow "admin@cloudflare.com" 1728043500000)
      fiveSameHour = 0 ∧
    (checkOTPRateLimit fiveSameHour "admin@cloudflare.com" 1728043500000).1
      = true ∧
    handleSendOTP (fun _ => true) "admin@cloudflare.com" "666666"
        1728043500000 6 true fiveSameHour =
      (.sendSuccess, fiveSameHour ++
        [newOtpRecord 6 "admin@cloudflare.com" "666666" 1728043500000]) := by
  decide

/-- C6: for a valid admin-domain email that passes the issuance rate
limit, `handleSendOTP` persists one new record expiring ten minutes from
now with both session fields unset, and answers success for both values
of the email-dispatch result: a dispatch failure changes neither the
response nor the stored record. -/
theorem claim_C6_send_ignores_email_failure (ev : String → Bool) (e otp : String)
    (now : Int) (nid : Nat) (db : Store)
    (he : e ≠ "") (hv : ev e = true)
    (hd : strEndsWith e "@cloudflare.com" = true)
    (hr : (checkOTPRateLimit db e now).1 = true) :
    ∀ emailSent : Bool,
      handleSendOTP ev e otp now nid emailSent db =
        (.sendSuccess, db ++ [newOtpRecord nid e otp now]) ∧
      (newOtpRecord nid e otp now).otp_expires_at = now + 600000 ∧
      (newOtpRecord nid e otp now).session_token = none ∧
      (newOtpRecord nid e otp now).session_expires_at = none ∧
      (newOtpRecord nid e otp now).created_at = now ∧
      SendOutcome.status .sendSuccess = 200 := by
  intro emailSent
  have hne : (e == "") = false := beq_eq_false_iff_ne.mpr he
  rw [handleSendOTP, hne, hv, hd, hr]
  refine ⟨by simp, ?_, rfl, rfl, rfl, rfl⟩
  norm_num [newOtpRecord, OTP_TTL_MS]

/-- Five failed attempts for one admin — codes issued from 12:00:00 UTC
of day 20000 in ten-second steps, each expired ten minutes later, never
consumed — together with a still-valid code issued at 12:13; the store a
verify call at 12:14 of the same day finds. -/
def fiveFailedPlusValid : Store :=
  [⟨1, "admin@cloudflare.com", "111111", none, 1728043800000, none, 1728043200000⟩,
   ⟨2, "admin@cloudflare.com", "222222", none, 1728043810000, none, 1728043210000⟩,
   ⟨3, "admin@cloudflare.com", "333333", none, 1728043820000, none, 1728043220000⟩,
   ⟨4, "admin@cloudflare.com", "444444", none, 1728043830000, none, 1728043230000⟩,
   ⟨5, "admin@cloudflare.com", "555555", none, 1728043840000, none, 1728043240000⟩,
   ⟨6, "admin@cloudflare.com", "481203", none, 1728044580000, none, 1728043980000⟩]

/-- C7 (code bug): the claim — verification allowed iff fewer than five
expired, unconsumed records in the last 15 minutes, RateLimited at the
bound before any code comparison — is what `checkVerifyRateLimit`
plainly intends (its comment counts "failed attempts", the
`MAX_OTP_VERIFY_ATTEMPTS` constant, the retryAfter hint), but the query
conjoins two mixed-format text comparisons: `created_at` (SQLite format)
must exceed an ISO bound, true only for records created on a later UTC
day than the window start, while `otp_expires_at` (ISO) must fall below
`datetime('now')` (SQLite format), true only for codes expiring on an
earlier UTC day — jointly unsatisfiable for a ten-minute TTL, so the
count is identically zero and the program never rate-limits
verification.  At this concrete input five expired unconsumed attempts
sit chronologically inside the window (first conjunct), the claim says
the call must answer RateLimited, yet the program counts zero, reports
the call allowed, and the verify succeeds outright. -/
theorem claim_C7_verify_limit_defeated :
    List.countP (fun r => r.email == "admin@cloudflare.com" &&
      decide (1728044040000 - VERIFY_WINDOW_MS < r.created_at) &&
      r.session_token == none && decide (r.otp_expires_at < 1728044040000))
      fiveFailedPlusValid = 5 ∧
    List.countP (failedVerifyAttempt "admin@cloudflare.com" 1728044040000)
      fiveFailedPlusValid = 0 ∧
    checkVerifyRateLimit fiveFailedPlusValid "admin@cloudflare.com"
      1728044040000 = true ∧
    (handleVerifyOTP "admin@cloudflare.com" "481203" "tk" 1728044040000 true
      fiveFailedPlusValid).1 = .verifySuccess "tk" 86400 := by
  decide

/-- A store holding one live admin session. -/
def oneSession : Store :=
  [⟨1, "admin@cloudflare.com", "", some "tk", 600000, some 86940000, 0⟩]

theorem claim_C5_session_validation_witness :
    validateAdminSession oneSession (some "tk") 500 = true :=
  ((claim_C5_session_validation oneSession 500).2.2.1 "tk" (by decide)).mpr
    ⟨⟨1, "admin@cloudflare.com", "", some "tk", 600000, some 86940000, 0⟩,
      by simp [oneSession], rfl, 86940000, rfl, by norm_num⟩

theorem claim_C6_send_ignores_email_failure_witness :
    handleSendOTP (fun _ => true) "admin@cloudflare.com" "123456" 0 1 false [] =
      (.sendSuccess, [newOtpRecord 1 "admin@cloudflare.com" "123456" 0]) :=
  (claim_C6_send_ignores_email_failure (fun _ => true) "admin@cloudflare.com"
    "123456" 0 1 [] (by decide) rfl (by decide) (by decide) false).1

theorem claim_C9_logout_idempotent_witness :
    validateAdminSession (handleLogout (some "tk") oneSession).2 (some "tk") 0
      = false :=
  (claim_C9_logout_idempotent (some "tk") oneSession).2.2.1 0

theorem verifyMatches_iff {e c : String} {now : Int} {r : AdminSession} :
    verifyMatches e c now r = true ↔
      r.email = e ∧ r.otp = c ∧ now < r.otp_expires_at ∧
        r.session_token = none := by
  rw [verifyMatches]
  simp [and_assoc]

/-- C4: past the format and rate-limit checks, a verify call succeeds iff
some stored record has equal email, exactly equal code, an expiry
strictly after now, and no session token; the consumed record is a most
recently created such match and the store effect is the UPDATE plus the
cleanup DELETE; when no record matches, the one answer is
`InvalidOrExpiredCode` (HTTP 401) whether the code was wrong, expired, or
already consumed. -/
theorem claim_C4_verify_match (db : Store) (e c tok : String) (now : Int)
    (he : e ≠ "") (hc : validateOTP c = true)
    (hr : checkVerifyRateLimit db e now = true) :
    ((handleVerifyOTP e c tok now true db).1 = .verifySuccess tok 86400 ↔
      ∃ r ∈ db, r.email = e ∧ r.otp = c ∧ now < r.otp_expires_at ∧
        r.session_token = none) ∧
    (∀ s, findVerifyRecord e c now db = some s →
      s ∈ db ∧ s.email = e ∧ s.otp = c ∧ now < s.otp_expires_at ∧
        s.session_token = none ∧
        (∀ r ∈ db, r.email = e → r.otp = c → now < r.otp_expires_at →
          r.session_token = none → r.created_at ≤ s.created_at) ∧
        handleVerifyOTP e c tok now true db =
          (.verifySuccess tok 86400,
            cleanupOthers e s.id
              (consumeRecord s.id tok (now + SESSION_TTL_MS) db))) ∧
    ((¬ ∃ r ∈ db, r.email = e ∧ r.otp = c ∧ now < r.otp_expires_at ∧
        r.session_token = none) →
      handleVerifyOTP e c tok now true db = (.invalidOrExpired, db) ∧
        VerifyOutcome.status .invalidOrExpired = 401) := by
  have hne : (e == "") = false := beq_eq_false_iff_ne.mpr he
  refine ⟨?_, ?_, ?_⟩
  · constructor
    · intro hsucc
      cases hf : findVerifyRecord e c now db with
      | none =>
        rw [handleVerifyOTP_eq_invalid hne hc hr hf] at hsucc
        simp at hsucc
      | some s =>
        obtain ⟨hs1, hs2, -⟩ := findVerifyRecord_some hf
        obtain ⟨m1, m2, m3, m4⟩ := verifyMatches_iff.mp hs2
        exact ⟨s, hs1, m1, m2, m3, m4⟩
    · rintro ⟨r, hrdb, m1, m2, m3, m4⟩
      cases hf : findVerifyRecord e c now db with
      | none =>
        have := findVerifyRecord_eq_none.mp hf r hrdb
        exact absurd (verifyMatches_iff.mpr ⟨m1, m2, m3, m4⟩) this
      | some s =>
        rw [handleVerifyOTP_eq_success hne hc hr hf]
  · intro s hf
    obtain ⟨hs1, hs2, hmax⟩ := findVerifyRecord_some hf
    obtain ⟨m1, m2, m3, m4⟩ := verifyMatches_iff.mp hs2
    refine ⟨hs1, m1, m2, m3, m4, ?_, handleVerifyOTP_eq_success hne hc hr hf⟩
    intro r hrdb r1 r2 r3 r4
    exact hmax r hrdb (verifyMatches_iff.mpr ⟨r1, r2, r3, r4⟩)
  · intro hno
    have hf : findVerifyRecord e c now db = none := by
      rw [findVerifyRecord_eq_none]
      intro r hrdb hm
      obtain ⟨m1, m2, m3, m4⟩ := verifyMatches_iff.mp hm
      exact hno ⟨r, hrdb, m1, m2, m3, m4⟩
    exact ⟨handleVerifyOTP_eq_invalid hne hc hr hf, rfl⟩

theorem claim_C4_verify_match_witness :
    (handleVerifyOTP "admin@cloudflare.com" "481203" "tk" 540000 true
        [⟨1, "admin@cloudflare.com", "481203", none, 600000, none, 0⟩]).1 =
      .verifySuccess "tk" 86400 :=
  (claim_C4_verify_match
      [⟨1, "admin@cloudflare.com", "481203", none, 600000, none, 0⟩]
      "admin@cloudflare.com" "481203" "tk" 540000
      (by decide) (by decide) (by decide)).1.mpr
    ⟨⟨1, "admin@cloudflare.com", "481203", none, 600000, none, 0⟩,
      by simp, rfl, rfl, by norm_num, rfl⟩

theorem no_unconsumed_after_success {e c tok : String} {now : Int}
    {db db' : Store}
    (h : handleVerifyOTP e c tok now true db = (.verifySuccess tok 86400, db')) :
    ∀ r ∈ db', ¬(r.email = e ∧ r.session_token = none) := by
  obtain ⟨-, -, -, -, -, -, s, hs, rfl⟩ := handleVerifyOTP_success_inv h
  intro r hr ⟨hre, hrt⟩
  rw [cleanupOthers] at hr
  have hkeep := List.of_mem_filter hr
  have hmem := List.mem_of_mem_filter hr
  rw [consumeRecord, List.mem_map] at hmem
  obtain ⟨r0, hr0, rfl⟩ := hmem
  by_cases h0 : (r0.id == s.id) = true
  · rw [if_pos h0] at hrt
    simp at hrt
  · rw [if_neg h0] at hkeep hre hrt
    simp only [hre, hrt] at hkeep
    simp at hkeep
    exact absurd hkeep (by simpa using h0)

theorem handleVerifyOTP_store_sub {em ot tk : String} {t : Int} {ck : Bool}
    {db : Store} {x : AdminSession}
    (h : x ∈ (handleVerifyOTP em ot tk t ck db).2) :
    x ∈ db ∨ (x.otp = "" ∧ ∃ r0 ∈ db, x.id = r0.id) := by
  rw [handleVerifyOTP] at h
  split at h
  · exact Or.inl h
  · split at h
    · exact Or.inl h
    · split at h
      · exact Or.inl h
      · split at h
        · exact Or.inl h
        · rename_i s hs
          have hx : x ∈ consumeRecord s.id tk (t + SESSION_TTL_MS) db := by
            split at h
            · exact List.mem_of_mem_filter h
            · exact h
          rw [consumeRecord, List.mem_map] at hx
          obtain ⟨r0, hr0, rfl⟩ := hx
          by_cases h0 : (r0.id == s.id) = true
          · rw [if_pos h0]
            exact Or.inr ⟨rfl, r0, hr0, rfl⟩
          · rw [if_neg h0]
            exact Or.inl hr0

/-- C1: once a verification succeeds, the consumed record keeps its id but
has an empty code and the session token set, and a second verify call
with the same email and code — at any later (or any) time, token draw and
cleanup outcome — answers `InvalidOrExpiredCode` and leaves the store
unchanged; moreover no operation of the subsystem ever turns the empty
code of a stored record back into a non-empty one (issuance only inserts
a fresh id, verification only clears codes, logout only deletes). -/
theorem claim_C1_code_single_use :
    (∀ e c tok now db db',
      handleVerifyOTP e c tok now true db = (.verifySuccess tok 86400, db') →
      (∃ s, findVerifyRecord e c now db = some s ∧
        ∃ r' ∈ db', r'.id = s.id ∧ r'.otp = "" ∧
          r'.session_token = some tok) ∧
      (∀ now' tok' ck,
        handleVerifyOTP e c tok' now' ck db' = (.invalidOrExpired, db'))) ∧
    (∀ db0 : Store, (db0.map AdminSession.id).Nodup →
      ∀ r ∈ db0, r.otp = "" →
      (∀ ev em ot t nid es, (∀ x ∈ db0, x.id ≠ nid) →
        ∀ r' ∈ (handleSendOTP ev em ot t nid es db0).2,
          r'.id = r.id → r'.otp = "") ∧
      (∀ em ot tk t ck,
        ∀ r' ∈ (handleVerifyOTP em ot tk t ck db0).2,
          r'.id = r.id → r'.otp = "") ∧
      (∀ tk, ∀ r' ∈ (handleLogout tk db0).2, r'.id = r.id → r'.otp = "")) := by
  constructor
  · intro e c tok now db db' h
    have hinv := handleVerifyOTP_success_inv h
    obtain ⟨hne, hc, hr, -, -, -, s, hs, hdb⟩ := hinv
    have hnone := no_unconsumed_after_success h
    constructor
    · refine ⟨s, hs, ?_⟩
      have hsdb : s ∈ db := (findVerifyRecord_some hs).1
      refine ⟨{ s with
          session_token := some tok
          session_expires_at := some (now + SESSION_TTL_MS)
          otp := "" }, ?_, rfl, rfl, rfl⟩
      rw [hdb, cleanupOthers, List.mem_filter]
      constructor
      · rw [consumeRecord, List.mem_map]
        exact ⟨s, hsdb, by rw [if_pos (beq_self_eq_true s.id)]⟩
      · simp
    · intro now' tok' ck
      have hrate : checkVerifyRateLimit db' e now' = true := by
        rw [checkVerifyRateLimit]
        have : db'.countP (failedVerifyAttempt e now') = 0 := by
          rw [List.countP_eq_zero]
          intro x hx hfail
          rw [failedVerifyAttempt] at hfail
          simp only [Bool.and_eq_true, beq_iff_eq] at hfail
          exact hnone x hx ⟨hfail.1.1.1, hfail.1.2⟩
        rw [this]
        decide
      have hfind : findVerifyRecord e c now' db' = none := by
        rw [findVerifyRecord_eq_none]
        intro x hx hm
        obtain ⟨m1, -, -, m4⟩ := verifyMatches_iff.mp hm
        exact hnone x hx ⟨m1, m4⟩
      exact handleVerifyOTP_eq_invalid hne hc hrate hfind
  · intro db0 hnodup r hrdb hrotp
    have hinj := List.inj_on_of_nodup_map hnodup
    refine ⟨?_, ?_, ?_⟩
    · intro ev em ot t nid es hfresh r' hr' hid
      rw [handleSendOTP] at hr'
      split at hr'
      · exact (hinj hr' hrdb hid) ▸ hrotp
      · split at hr'
        · exact (hinj hr' hrdb hid) ▸ hrotp
        · split at hr'
          · exact (hinj hr' hrdb hid) ▸ hrotp
          · rw [List.mem_append] at hr'
            rcases hr' with hr' | hr'
            · exact (hinj hr' hrdb hid) ▸ hrotp
            · simp only [List.mem_singleton] at hr'
              subst hr'
              exact absurd hid.symm (hfresh r hrdb)
    · intro em ot tk t ck r' hr' hid
      rcases handleVerifyOTP_store_sub hr' with hr' | ⟨hr', -⟩
      · exact (hinj hr' hrdb hid) ▸ hrotp
      · exact hr'
    · intro tk r' hr' hid
      cases tk with
      | none => exact (hinj hr' hrdb hid) ▸ hrotp
      | some t =>
        rw [handleLogout] at hr'
        split at hr'
        · exact (hinj hr' hrdb hid) ▸ hrotp
        · exact (hinj (List.mem_of_mem_filter hr') hrdb hid) ▸ hrotp

theorem claim_C1_code_single_use_witness :
    handleVerifyOTP "admin@cloudflare.com" "481203" "tk2" 600001 false
        [⟨1, "admin@cloudflare.com", "", some "tk", 600000, some 86940000, 0⟩] =
      (.invalidOrExpired,
        [⟨1, "admin@cloudflare.com", "", some "tk", 600000, some 86940000, 0⟩]) :=
  ((claim_C1_code_single_use.1 "admin@cloudflare.com" "481203" "tk" 540000
      [⟨1, "admin@cloudflare.com", "481203", none, 600000, none, 0⟩]
      [⟨1, "admin@cloudflare.com", "", some "tk", 600000, some 86940000, 0⟩]
      (by decide)).2) 600001 "tk2" false

/-- C8 (amended): on a successful verification the cleanup deletes exactly
the other unconsumed records of the same email: records of other emails,
records with a session token, and the record just consumed all remain,
while every other unconsumed record of that email is removed.  However the
cleanup DELETE runs inside the handler try block, so when it fails the
verification does not keep its success result: the handler answers the
generic 500 failure even though the session token was already persisted
by the UPDATE. -/
theorem claim_C8_cleanup_frame (db : Store) (e c tok : String) (now : Int)
    (s : AdminSession)
    (hnodup : (db.map AdminSession.id).Nodup)
    (he : e ≠ "") (hc : validateOTP c = true)
    (hr : checkVerifyRateLimit db e now = true)
    (hs : findVerifyRecord e c now db = some s) :
    (∀ x ∈ db, x.email ≠ e →
      x ∈ (handleVerifyOTP e c tok now true db).2) ∧
    (∀ x ∈ db, (∃ v, x.session_token = some v) →
      x ∈ (handleVerifyOTP e c tok now true db).2) ∧
    (∃ x ∈ (handleVerifyOTP e c tok now true db).2,
      x.id = s.id ∧ x.otp = "" ∧ x.session_token = some tok) ∧
    (∀ x ∈ db, x.email = e → x.session_token = none → x.id ≠ s.id →
      x ∉ (handleVerifyOTP e c tok now true db).2) ∧
    ((handleVerifyOTP e c tok now true db).1 = .verifySuccess tok 86400) ∧
    (handleVerifyOTP e c tok now false db =
        (.storeError, consumeRecord s.id tok (now + SESSION_TTL_MS) db) ∧
      VerifyOutcome.status .storeError = 500) := by
  have hne : (e == "") = false := beq_eq_false_iff_ne.mpr he
  have hinj := List.inj_on_of_nodup_map hnodup
  obtain ⟨hsdb, hsm, -⟩ := findVerifyRecord_some hs
  obtain ⟨hse, hso, hst, hsn⟩ := verifyMatches_iff.mp hsm
  have hsucc := @handleVerifyOTP_eq_success e c tok now db s hne hc hr hs
  rw [hsucc]
  have hfix : ∀ x ∈ db, x.id ≠ s.id →
      x ∈ consumeRecord s.id tok (now + SESSION_TTL_MS) db := by
    intro x hx hxid
    rw [consumeRecord, List.mem_map]
    refine ⟨x, hx, ?_⟩
    rw [if_neg (by simpa using hxid)]
  refine ⟨?_, ?_, ?_, ?_, rfl, handleVerifyOTP_eq_storeError hne hc hr hs, rfl⟩
  · intro x hx hxe
    have hxid : x.id ≠ s.id := by
      intro hid
      exact hxe (by rw [hinj hx hsdb hid, hse])
    rw [cleanupOthers, List.mem_filter]
    refine ⟨hfix x hx hxid, ?_⟩
    have : (x.email == e) = false := beq_eq_false_iff_ne.mpr hxe
    simp [this]
  · intro x hx ⟨v, hv⟩
    have hxid : x.id ≠ s.id := by
      intro hid
      have hxs := hinj hx hsdb hid
      rw [hxs, hsn] at hv
      exact Option.noConfusion hv
    rw [cleanupOthers, List.mem_filter]
    refine ⟨hfix x hx hxid, ?_⟩
    simp [hv]
  · refine ⟨{ s with
        session_token := some tok
        session_expires_at := some (now + SESSION_TTL_MS)
        otp := "" }, ?_, rfl, rfl, rfl⟩
    rw [cleanupOthers, List.mem_filter]
    constructor
    · rw [consumeRecord, List.mem_map]
      exact ⟨s, hsdb, by rw [if_pos (beq_self_eq_true s.id)]⟩
    · simp
  · intro x hx hxe hxt hxid hmem
    rw [cleanupOthers, List.mem_filter] at hmem
    have hkeep := hmem.2
    simp only [hxe, hxt] at hkeep
    simp at hkeep
    exact hxid hkeep

theorem claim_C8_cleanup_frame_witness :
    (⟨3, "other@cloudflare.com", "123123", none, 600000, none, 2⟩ : AdminSession) ∈
      (handleVerifyOTP "admin@cloudflare.com" "481203" "tk" 540000 true
        [⟨1, "admin@cloudflare.com", "481203", none, 600000, none, 0⟩,
         ⟨2, "admin@cloudflare.com", "999999", none, 600000, none, 1⟩,
         ⟨3, "other@cloudflare.com", "123123", none, 600000, none, 2⟩,
         ⟨4, "admin@cloudflare.com", "", some "old", 600000, some 999999999, 3⟩]).2 ∧
    (⟨2, "admin@cloudflare.com", "999999", none, 600000, none, 1⟩ : AdminSession) ∉
      (handleVerifyOTP "admin@cloudflare.com" "481203" "tk" 540000 true
        [⟨1, "admin@cloudflare.com", "481203", none, 600000, none, 0⟩,
         ⟨2, "admin@cloudflare.com", "999999", none, 600000, none, 1⟩,
         ⟨3, "other@cloudflare.com", "123123", none, 600000, none, 2⟩,
         ⟨4, "admin@cloudflare.com", "", some "old", 600000, some 999999999, 3⟩]).2 :=
  have h := claim_C8_cleanup_frame
    [⟨1, "admin@cloudflare.com", "481203", none, 600000, none, 0⟩,
     ⟨2, "admin@cloudflare.com", "999999", none, 600000, none, 1⟩,
     ⟨3, "other@cloudflare.com", "123123", none, 600000, none, 2⟩,
     ⟨4, "admin@cloudflare.com", "", some "old", 600000, some 999999999, 3⟩]
    "admin@cloudflare.com" "481203" "tk" 540000
    ⟨1, "admin@cloudflare.com", "481203", none, 600000, none, 0⟩
    (by decide) (by decide) (by decide) (by decide) (by decide)
  ⟨h.1 ⟨3, "other@cloudflare.com", "123123", none, 600000, none, 2⟩
      (by simp) (by decide),
    h.2.2.2.1 ⟨2, "admin@cloudflare.com", "999999", none, 600000, none, 1⟩
      (by simp) rfl rfl (by decide)⟩

/-- C8 counterexample: with one matching record, a failing cleanup DELETE
makes `handleVerifyOTP` answer the generic 500 failure instead of
success, even though the UPDATE already persisted the session token — the
claim that cleanup failure does not change the success result is false on
this input. -/
theorem claim_C8_cleanup_failure_counterexample :
    handleVerifyOTP "admin@cloudflare.com" "481203" "tk" 540000 false
        [⟨1, "admin@cloudflare.com", "481203", none, 600000, none, 0⟩] =
      (.storeError,
        [⟨1, "admin@cloudflare.com", "", some "tk", 600000, some 86940000, 0⟩]) ∧
    VerifyOutcome.status .storeError = 500 ∧
    VerifyOutcome.storeError ≠ .verifySuccess "tk" 86400 := by
  exact ⟨by decide, rfl, by decide⟩

/-! Decimal-string lemmas for `generateOTP` -/

theorem decDigitsRev_pos {n : Nat} (h : n ≠ 0) :
    decDigitsRev n = decDigitChar (n % 10) :: decDigitsRev (n / 10) := by
  rw [decDigitsRev]
  simp [h]

theorem decDigitChar_isDigit {d : Nat} (h : d < 10) :
    (decDigitChar d).isDigit = true := by
  interval_cases d <;> decide

theorem decDigitChar_eq_zero_iff {d : Nat} (h : d < 10) :
    decDigitChar d = '0' ↔ d = 0 := by
  interval_cases d <;> decide

theorem decDigitsRev_all_digits :
    ∀ n : Nat, ∀ ch ∈ decDigitsRev n, ch.isDigit = true := by
  intro n
  induction n using Nat.strong_induction_on with
  | _ n ih =>
    intro ch hch
    by_cases h : n = 0
    · subst h
      rw [decDigitsRev] at hch
      simp at hch
    · rw [decDigitsRev_pos h] at hch
      rcases List.mem_cons.mp hch with rfl | hch
      · exact decDigitChar_isDigit (Nat.mod_lt _ (by norm_num))
      · exact ih (n / 10)
          (Nat.div_lt_self (Nat.pos_of_ne_zero h) (by norm_num)) ch hch

theorem decDigitsRev_length {k : Nat} :
    ∀ {n : Nat}, 10 ^ k ≤ n → n < 10 ^ (k + 1) →
      (decDigitsRev n).length = k + 1 := by
  induction k with
  | zero =>
    intro n h1 h2
    norm_num at h1 h2
    have hn : n ≠ 0 := by omega
    rw [decDigitsRev_pos hn]
    have hd : n / 10 = 0 := Nat.div_eq_of_lt (by omega)
    rw [hd, decDigitsRev]
    simp
  | succ k ih =>
    intro n h1 h2
    have hp : 0 < (10:ℕ) ^ (k + 1) := pow_pos (by norm_num) _
    have hn : n ≠ 0 := by omega
    have h1' : 10 ^ k ≤ n / 10 := by
      rw [Nat.le_div_iff_mul_le (by norm_num)]
      calc 10 ^ k * 10 = 10 ^ (k + 1) := (pow_succ 10 k).symm
        _ ≤ n := h1
    have h2' : n / 10 < 10 ^ (k + 1) := by
      rw [Nat.div_lt_iff_lt_mul (by norm_num)]
      calc n < 10 ^ (k + 2) := h2
        _ = 10 ^ (k + 1) * 10 := pow_succ 10 (k + 1)
    rw [decDigitsRev_pos hn, List.length_cons, ih h1' h2']

theorem decDigitsRev_eq_zero_of_all_zero :
    ∀ n : Nat, (∀ ch ∈ decDigitsRev n, ch = '0') → n = 0 := by
  intro n
  induction n using Nat.strong_induction_on with
  | _ n ih =>
    intro hall
    by_cases h : n = 0
    · exact h
    · exfalso
      rw [decDigitsRev_pos h] at hall
      have h10 : n % 10 < 10 := Nat.mod_lt _ (by norm_num)
      have hm : n % 10 = 0 :=
        (decDigitChar_eq_zero_iff h10).mp (hall _ (List.mem_cons_self _ _))
      have htail : n / 10 = 0 :=
        ih (n / 10) (Nat.div_lt_self (Nat.pos_of_ne_zero h) (by norm_num))
          (fun ch hch => hall ch (List.mem_cons_of_mem _ hch))
      omega

theorem decString_data_of_pos {n : Nat} (h : n ≠ 0) :
    (decString n).data = (decDigitsRev n).reverse := by
  rw [decString, if_neg h]

theorem decString_length_six {v : Nat} (h1 : 100000 ≤ v) (h2 : v ≤ 999999) :
    (decString v).data.length = 6 := by
  have hv : v ≠ 0 := by omega
  rw [decString_data_of_pos hv, List.length_reverse]
  have e5 : (10:ℕ) ^ 5 = 100000 := by norm_num
  have e6 : (10:ℕ) ^ 6 = 1000000 := by norm_num
  exact decDigitsRev_length (by omega) (by rw [show (5:ℕ) + 1 = 6 from rfl, e6]; omega)

theorem padStart6_of_length_six {s : String} (h : s.data.length = 6) :
    padStart6 s = s := by
  rcases s with ⟨d⟩
  rw [padStart6]
  simp only at h
  simp [h]

theorem generateOTP_eq_decString (r : Nat) :
    generateOTP r = decString (100000 + r % 900000) ∧
      100000 ≤ 100000 + r % 900000 ∧ 100000 + r % 900000 ≤ 999999 := by
  have hm : r % 900000 < 900000 := Nat.mod_lt _ (by norm_num)
  refine ⟨?_, by omega, by omega⟩
  rw [generateOTP]
  exact padStart6_of_length_six (decString_length_six (by omega) (by omega))

/-- C2 counterexample: the code computes
`String(100000 + (r % 900000)).padStart(6, '0')`, whose value is at least
100000, so the code `"000000"` — inside the range the claim says is fully
reachable with uniform probability — is not a possible output for any
32-bit draw; a uniform distribution over 000000 – 999999 is therefore
impossible as well. -/
theorem claim_C2_generateOTP_counterexample :
    ¬ ∃ r : Nat, r < 2 ^ 32 ∧ generateOTP r = "000000" := by
  rintro ⟨r, -, heq⟩
  obtain ⟨he, h1, h2⟩ := generateOTP_eq_decString r
  rw [he] at heq
  have hv : (100000 + r % 900000) ≠ 0 := by omega
  have hdata := congrArg String.data heq
  rw [decString_data_of_pos hv] at hdata
  have hzero : ∀ c ∈ ("000000" : String).data, c = '0' := by decide
  have hall : ∀ ch ∈ decDigitsRev (100000 + r % 900000), ch = '0' := by
    intro ch hch
    exact hzero ch (hdata ▸ List.mem_reverse.mpr hch)
  have := decDigitsRev_eq_zero_of_all_zero _ hall
  omega

/-- C2 (amended): for every value of the 32-bit random source,
`generateOTP` returns a string of exactly six decimal digits, and the set
of possible outputs is exactly the decimal codes 100000 through 999999:
every draw lands in that range, and every code in that range is attained
by some draw below 2^32.  Codes 000000 through 099999 are never produced,
so the claimed range 000000 – 999999 and uniformity over it do not hold. -/
theorem claim_C2_generateOTP_range :
    (∀ r : Nat, (generateOTP r).data.length = 6 ∧
      (∀ ch ∈ (generateOTP r).data, ch.isDigit = true) ∧
      ∃ v, 100000 ≤ v ∧ v ≤ 999999 ∧ generateOTP r = decString v) ∧
    (∀ v : Nat, 100000 ≤ v → v ≤ 999999 →
      ∃ r, r < 2 ^ 32 ∧ generateOTP r = decString v) := by
  constructor
  · intro r
    obtain ⟨he, h1, h2⟩ := generateOTP_eq_decString r
    refine ⟨?_, ?_, _, h1, h2, he⟩
    · rw [he]
      exact decString_length_six h1 h2
    · intro ch hch
      rw [he, decString_data_of_pos (by omega)] at hch
      exact decDigitsRev_all_digits _ ch (List.mem_reverse.mp hch)
  · intro v h1 h2
    refine ⟨v - 100000, by omega, ?_⟩
    obtain ⟨he, -, -⟩ := generateOTP_eq_decString (v - 100000)
    have hmod : (v - 100000) % 900000 = v - 100000 := Nat.mod_eq_of_lt (by omega)
    have harg : 100000 + (v - 100000) = v := by omega
    rw [he, hmod, harg]

theorem claim_C2_generateOTP_range_witness :
    ∃ r, r < 2 ^ 32 ∧ generateOTP r = decString 123456 :=
  claim_C2_generateOTP_range.2 123456 (by norm_num) (by norm_num)

/-! The verification limiter on stores written by the issuer

Every row `handleSendOTP` writes has its code expiry ten minutes after
its creation (the data model's `code_expires_at = issued_at + 10
minutes`).  On such rows the `checkVerifyRateLimit` count is identically
zero: a counted row would need a creation on a strictly later UTC day
than the window start and an expiry on a strictly earlier UTC day than
today at once, and the window start lies at most one day back — see the
C7 finding. -/

theorem utcDay_mono {a b : Int} (h : a ≤ b) : utcDay a ≤ utcDay b :=
  Int.ediv_le_ediv (by norm_num [msPerDay]) h

theorem utcDay_sub_day (t : Int) : utcDay (t - msPerDay) = utcDay t - 1 := by
  have h := Int.add_mul_ediv_right t (-1) (show msPerDay ≠ 0 by norm_num [msPerDay])
  rw [utcDay, utcDay]
  have e : t - msPerDay = t + (-1) * msPerDay := by ring
  rw [e, h]
  ring

/-- On a store whose unconsumed rows for the email carry the issuer's
ten-minute code TTL, the verification limiter counts nothing: the two
mixed-format text comparisons of its query cannot hold together. -/
theorem countP_failedVerifyAttempt_eq_zero {db : Store} {e : String} {now : Int}
    (hwf : ∀ r ∈ db, r.email = e → r.session_token = none →
      r.otp_expires_at = r.created_at + OTP_TTL_MS) :
    db.countP (failedVerifyAttempt e now) = 0 := by
  rw [List.countP_eq_zero]
  intro r hr hp
  rw [failedVerifyAttempt] at hp
  simp only [Bool.and_eq_true, beq_iff_eq] at hp
  obtain ⟨⟨⟨hre, hcre⟩, hrt⟩, hexp⟩ := hp
  rw [sqliteTextGtIso, decide_eq_true_eq] at hcre
  rw [isoTextLtSqlite, decide_eq_true_eq] at hexp
  have hwfr := hwf r hr hre hrt
  have h1 : utcDay (now - msPerDay) ≤ utcDay (now - VERIFY_WINDOW_MS) :=
    utcDay_mono (by simp only [msPerDay, VERIFY_WINDOW_MS]; omega)
  have h2 : utcDay r.created_at ≤ utcDay r.otp_expires_at := by
    rw [hwfr]
    exact utcDay_mono (by simp only [OTP_TTL_MS]; omega)
  have h3 := utcDay_sub_day now
  omega

theorem wrong_attempt_invalid {db : Store} {e c tok : String} {now : Int}
    {ck : Bool}
    (hwf : ∀ r ∈ db, r.email = e → r.session_token = none →
      r.otp_expires_at = r.created_at + OTP_TTL_MS)
    (he : e ≠ "") (hc : validateOTP c = true)
    (hwrong : ∀ r ∈ db, r.email = e → r.session_token = none →
      now < r.otp_expires_at → r.otp ≠ c) :
    checkVerifyRateLimit db e now = true ∧
      db.countP (failedVerifyAttempt e now) = 0 ∧
      handleVerifyOTP e c tok now ck db = (.invalidOrExpired, db) := by
  have hzero := @countP_failedVerifyAttempt_eq_zero db e now hwf
  have hrate : checkVerifyRateLimit db e now = true := by
    rw [checkVerifyRateLimit, hzero]
    decide
  have hfind : findVerifyRecord e c now db = none := by
    rw [findVerifyRecord_eq_none]
    intro r hr hm
    obtain ⟨m1, m2, m3, m4⟩ := verifyMatches_iff.mp hm
    exact hwrong r hr m1 m4 m3 m2
  exact ⟨hrate, hzero,
    handleVerifyOTP_eq_invalid (beq_eq_false_iff_ne.mpr he) hc hrate hfind⟩

/-- Repeated verify calls for one email, threading the store. -/
def runVerifies (e tok : String) (ck : Bool) :
    List (String × Int) → Store → List VerifyOutcome × Store
  | [], db => ([], db)
  | (c, t) :: rest, db =>
    let o := handleVerifyOTP e c tok t ck db
    let rs := runVerifies e tok ck rest o.2
    (o.1 :: rs.1, rs.2)

/-- C10: on any store whose unconsumed rows for the email carry the
issuer's ten-minute code TTL — as every row written by `handleSendOTP`
does — and while an unexpired, unconsumed record exists, wrong-code
verify attempts leave the store unchanged and the verification
rate-limit count untouched: that count is identically zero on such
stores (the C7 finding), so for every n, n consecutive wrong-code
attempts inside the code validity window each answer
`InvalidOrExpiredCode` and none answers `RateLimited`. -/
theorem claim_C10_wrong_attempts_not_ratelimited
    (e tok : String) (ck : Bool) (db : Store)
    (hwf : ∀ r ∈ db, r.email = e → r.session_token = none →
      r.otp_expires_at = r.created_at + OTP_TTL_MS)
    (he : e ≠ "")
    (attempts : List (String × Int))
    (hfmt : ∀ a ∈ attempts, validateOTP a.1 = true)
    (hvalid : ∀ a ∈ attempts, ∃ rv ∈ db, rv.email = e ∧
      rv.session_token = none ∧ a.2 < rv.otp_expires_at)
    (hwrong : ∀ a ∈ attempts, ∀ r ∈ db, r.email = e → r.session_token = none →
      a.2 < r.otp_expires_at → r.otp ≠ a.1) :
    runVerifies e tok ck attempts db =
      (attempts.map (fun _ => VerifyOutcome.invalidOrExpired), db) ∧
    (∀ a ∈ attempts, checkVerifyRateLimit db e a.2 = true ∧
      db.countP (failedVerifyAttempt e a.2) = 0) := by
  induction attempts with
  | nil => exact ⟨rfl, by simp⟩
  | cons a rest ih =>
    obtain ⟨c, t⟩ := a
    have hone := @wrong_attempt_invalid db e c tok t ck hwf he
      (hfmt (c, t) (List.mem_cons_self _ _))
      (hwrong (c, t) (List.mem_cons_self _ _))
    have hrest := ih
      (fun x hx => hfmt x (List.mem_cons_of_mem _ hx))
      (fun x hx => hvalid x (List.mem_cons_of_mem _ hx))
      (fun x hx => hwrong x (List.mem_cons_of_mem _ hx))
    constructor
    · rw [runVerifies]
      simp only [hone.2.2, hrest.1, List.map_cons]
    · intro x hx
      rcases List.mem_cons.mp hx with rfl | hx
      · exact ⟨hone.1, hone.2.1⟩
      · exact hrest.2 x hx

theorem claim_C10_wrong_attempts_not_ratelimited_witness :
    runVerifies "admin@cloudflare.com" "tk" true
        [("111111", 1728043260000), ("222222", 1728043320000)]
        [⟨1, "admin@cloudflare.com", "481203", none, 1728043800000, none,
          1728043200000⟩] =
      ([.invalidOrExpired, .invalidOrExpired],
        [⟨1, "admin@cloudflare.com", "481203", none, 1728043800000, none,
          1728043200000⟩]) :=
  (claim_C10_wrong_attempts_not_ratelimited "admin@cloudflare.com" "tk" true
    [⟨1, "admin@cloudflare.com", "481203", none, 1728043800000, none,
      1728043200000⟩]
    (by decide) (by decide)
    [("111111", 1728043260000), ("222222", 1728043320000)]
    (by decide) (by decide) (by decide)).1

end Swag
